import Mathlib

/-!
Shallow embedding of the coordination core of the repository:
the BotNet coordinator (src/src/asi/cognitive/botnet.ts) and the
multiplex router (src/src/asi/multiplex/router.ts), together with
theorems settling the specification claims about them.

JS `Map`s are modelled as insertion-ordered association lists
(`Map.set` updates in place, `Map.values()` iterates in insertion
order).  Timestamps (`Date.now()`) are modelled as `Nat` arguments.
`setTimeout`-scheduled callbacks are modelled as explicit operations
(the scheduled completion of a task is a later `completeTask` call;
the periodic liveness timer is a later `checkHeartbeat` call).
Event emission is modelled by returning the list of emitted events.
-/

namespace ASI

/-! ### Insertion-ordered map (JS `Map`) -/

/-- Lookup in an insertion-ordered association list (JS `Map.get`). -/
def mapGet {α : Type} (m : List (String × α)) (k : String) : Option α :=
  match m with
  | [] => none
  | (k', v) :: rest => if k' = k then some v else mapGet rest k

/-- Update (JS `Map.set`): overwrite in place if the key is present,
append otherwise. -/
def mapSet {α : Type} (m : List (String × α)) (k : String) (v : α) :
    List (String × α) :=
  match m with
  | [] => [(k, v)]
  | (k', v') :: rest =>
    if k' = k then (k, v) :: rest else (k', v') :: mapSet rest k v

/-- Removal (JS `Map.delete`). -/
def mapDelete {α : Type} (m : List (String × α)) (k : String) :
    List (String × α) :=
  match m with
  | [] => []
  | (k', v') :: rest =>
    if k' = k then rest else (k', v') :: mapDelete rest k

/-- JS `Map.values()` in insertion order. -/
def mapValues {α : Type} (m : List (String × α)) : List α :=
  m.map Prod.snd

/-! ### Data model (src/src/asi/types.ts) -/

inductive NodeStatus where
  | online
  | offline
  | busy
deriving DecidableEq

inductive TaskStatus where
  | pending
  | processing
  | completed
  | failed
deriving DecidableEq

/-- `BotNetNode` from types.ts. -/
structure BotNetNode where
  nodeId : String
  agentId : String
  orgId : String
  capabilities : List String
  status : NodeStatus
  lastHeartbeat : Nat
deriving DecidableEq

/-- `DistributedTask` from types.ts.  The opaque `payload: any` field is
omitted: nothing in the coordination core reads or writes it. -/
structure DistributedTask where
  taskId : String
  type : String
  priority : Int
  sourceNode : String
  targetNodes : List String
  status : TaskStatus
  createdAt : Nat
  completedAt : Option Nat
deriving DecidableEq

/-- `OrganizationContext` from types.ts.  The opaque `metadata` mapping is
omitted: the router never reads it. -/
structure OrganizationContext where
  orgId : String
  name : String
  tenantId : String
deriving DecidableEq

inductive ChannelType where
  | agent2agent
  | org2org
  | sensor2agent
  | broadcast
deriving DecidableEq

inductive ChannelStatus where
  | active
  | paused
  | terminated
deriving DecidableEq

/-- `MultiplexChannel` from types.ts. -/
structure MultiplexChannel where
  sourceOrgId : String
  targetOrgId : String
  channelType : ChannelType
  status : ChannelStatus
deriving DecidableEq

/-! ### BotNet coordinator state and events (botnet.ts) -/

inductive BotNetEvent where
  | nodeRegistered (node : BotNetNode)
  | nodeUnregistered (node : BotNetNode)
  | nodeOnline (node : BotNetNode)
  | nodeOffline (node : BotNetNode)
  | taskCreated (task : DistributedTask)
  | taskFailed (task : DistributedTask) (reason : String)
  | taskAssigned (task : DistributedTask) (node : BotNetNode)
  | taskCompleted (task : DistributedTask) (node : BotNetNode)
deriving DecidableEq

/-- The two mutable maps of `BotNetCoordinator` (the timer map is modelled
by the explicit `checkHeartbeat` operation). -/
structure CoordinatorState where
  nodes : List (String × BotNetNode)
  tasks : List (String × DistributedTask)
deriving DecidableEq

/-- `heartbeatInterval = 30000` (30 seconds), botnet.ts line 12. -/
def heartbeatInterval : Nat := 30000

/-- `registerNode`, botnet.ts lines 25-31. -/
def registerNode (st : CoordinatorState) (node : BotNetNode) :
    CoordinatorState × List BotNetEvent :=
  ({ st with nodes := mapSet st.nodes node.nodeId node },
   [BotNetEvent.nodeRegistered node])

/-- `unregisterNode`, botnet.ts lines 36-43. -/
def unregisterNode (st : CoordinatorState) (nodeId : String) :
    CoordinatorState × List BotNetEvent :=
  match mapGet st.nodes nodeId with
  | none => (st, [])
  | some node =>
    ({ st with nodes := mapDelete st.nodes nodeId },
     [BotNetEvent.nodeUnregistered node])

/-- `checkHeartbeat`, botnet.ts lines 70-81: the body of the periodic
liveness timer.  `now` models `Date.now()`; `now - node.lastHeartbeat`
models `timeSinceLastHeartbeat` (heartbeats never lie in the future, so
truncated subtraction agrees with JS subtraction). -/
def checkHeartbeat (st : CoordinatorState) (nodeId : String) (now : Nat) :
    CoordinatorState × List BotNetEvent :=
  match mapGet st.nodes nodeId with
  | none => (st, [])
  | some node =>
    if heartbeatInterval * 2 < now - node.lastHeartbeat then
      ({ st with nodes := mapSet st.nodes nodeId { node with status := NodeStatus.offline } },
       [BotNetEvent.nodeOffline { node with status := NodeStatus.offline }])
    else
      (st, [])

/-- `heartbeat`, botnet.ts lines 86-95. -/
def heartbeat (st : CoordinatorState) (nodeId : String) (now : Nat) :
    CoordinatorState × List BotNetEvent :=
  match mapGet st.nodes nodeId with
  | none => (st, [])
  | some node =>
    if node.status = NodeStatus.offline then
      let node' : BotNetNode :=
        { node with lastHeartbeat := now, status := NodeStatus.online }
      ({ st with nodes := mapSet st.nodes nodeId node' },
       [BotNetEvent.nodeOnline node'])
    else
      ({ st with nodes := mapSet st.nodes nodeId { node with lastHeartbeat := now } },
       [])

/-- JS `hay.includes(needle)`: substring containment. -/
def strIncludes (hay needle : String) : Bool :=
  decide (needle.toList <:+: hay.toList)

/-- `findCapableNodes`, botnet.ts lines 125-142: online nodes such that
some entry of `task.targetNodes` contains the node's `nodeId` or `orgId`
as a substring. -/
def findCapableNodes (nodes : List (String × BotNetNode)) (task : DistributedTask) :
    List BotNetNode :=
  (mapValues nodes).filter fun node =>
    decide (node.status = NodeStatus.online) &&
      task.targetNodes.any fun target =>
        strIncludes target node.nodeId || strIncludes target node.orgId

/-- The comparator of `selectNodes` (botnet.ts lines 149-153) as a
boolean "less or equal": `cmp a b ≤ 0`, i.e. not (`a` non-online while
`b` online). -/
def nodeSortLe (a b : BotNetNode) : Bool :=
  !(decide (a.status ≠ NodeStatus.online) && decide (b.status = NodeStatus.online))

/-- `selectNodes`, botnet.ts lines 147-157: stable sort by the comparator
(ES2019 `Array.prototype.sort` is stable), then `slice(0, targetNodes.length)`. -/
def selectNodes (capableNodes : List BotNetNode) (task : DistributedTask) :
    List BotNetNode :=
  (capableNodes.mergeSort nodeSortLe).take task.targetNodes.length

/-- `assignTask`, botnet.ts lines 162-170, minus the `setTimeout` that
schedules `completeTask` (modelled as a separate later operation). -/
def assignTask (st : CoordinatorState) (task : DistributedTask) (node : BotNetNode) :
    CoordinatorState × BotNetEvent :=
  ({ st with nodes := mapSet st.nodes node.nodeId { node with status := NodeStatus.busy } },
   BotNetEvent.taskAssigned task { node with status := NodeStatus.busy })

/-- The `for (const node of selectedNodes)` loop of `createTask`. -/
def assignLoop (st : CoordinatorState) (task : DistributedTask) :
    List BotNetNode → CoordinatorState × List BotNetEvent
  | [] => (st, [])
  | node :: rest =>
    let r1 := assignTask st task node
    let r2 := assignLoop r1.1 task rest
    (r2.1, r1.2 :: r2.2)

/-- `createTask`, botnet.ts lines 100-120. -/
def createTask (st : CoordinatorState) (task : DistributedTask) :
    CoordinatorState × List BotNetEvent :=
  let st0 : CoordinatorState := { st with tasks := mapSet st.tasks task.taskId task }
  let capableNodes := findCapableNodes st0.nodes task
  if capableNodes.isEmpty then
    ({ st0 with tasks := mapSet st0.tasks task.taskId { task with status := TaskStatus.failed } },
     [BotNetEvent.taskCreated task,
      BotNetEvent.taskFailed { task with status := TaskStatus.failed } "no_capable_nodes"])
  else
    let r := assignLoop st0 task (selectNodes capableNodes task)
    (r.1, BotNetEvent.taskCreated task :: r.2)

/-- `completeTask`, botnet.ts lines 175-186.  `now` models `Date.now()`. -/
def completeTask (st : CoordinatorState) (taskId nodeId : String) (now : Nat) :
    CoordinatorState × List BotNetEvent :=
  match mapGet st.tasks taskId, mapGet st.nodes nodeId with
  | some task, some node =>
    let task' : DistributedTask :=
      { task with status := TaskStatus.completed, completedAt := some now }
    let node' : BotNetNode := { node with status := NodeStatus.online }
    ({ st with
        tasks := mapSet st.tasks taskId task',
        nodes := mapSet st.nodes nodeId node' },
     [BotNetEvent.taskCompleted task' node'])
  | _, _ => (st, [])

/-- The record returned by `getStats`, botnet.ts lines 212-227. -/
structure NetworkStats where
  totalNodes : Nat
  onlineNodes : Nat
  busyNodes : Nat
  offlineNodes : Nat
  totalTasks : Nat
  pendingTasks : Nat
  processingTasks : Nat
  completedTasks : Nat
  failedTasks : Nat
deriving DecidableEq

/-- `getStats`, botnet.ts lines 212-227. -/
def getStats (st : CoordinatorState) : NetworkStats :=
  let nodes := mapValues st.nodes
  let tasks := mapValues st.tasks
  { totalNodes := nodes.length
    onlineNodes := (nodes.filter fun n => decide (n.status = NodeStatus.online)).length
    busyNodes := (nodes.filter fun n => decide (n.status = NodeStatus.busy)).length
    offlineNodes := (nodes.filter fun n => decide (n.status = NodeStatus.offline)).length
    totalTasks := tasks.length
    pendingTasks := (tasks.filter fun t => decide (t.status = TaskStatus.pending)).length
    processingTasks := (tasks.filter fun t => decide (t.status = TaskStatus.processing)).length
    completedTasks := (tasks.filter fun t => decide (t.status = TaskStatus.completed)).length
    failedTasks := (tasks.filter fun t => decide (t.status = TaskStatus.failed)).length }

/-- The coordinator operations that can touch a task record after its
creation: the public API plus the two timer-driven callbacks (a liveness
check is a `checkHeartbeat` firing, a scheduled completion is a
`completeTask` firing). -/
inductive CoordOp where
  | registerNode (node : BotNetNode)
  | unregisterNode (nodeId : String)
  | heartbeat (nodeId : String) (now : Nat)
  | createTask (task : DistributedTask)
  | completeTask (taskId nodeId : String) (now : Nat)
  | livenessCheck (nodeId : String) (now : Nat)
deriving DecidableEq

def stepCoord (st : CoordinatorState) : CoordOp → CoordinatorState × List BotNetEvent
  | CoordOp.registerNode node => registerNode st node
  | CoordOp.unregisterNode nodeId => unregisterNode st nodeId
  | CoordOp.heartbeat nodeId now => heartbeat st nodeId now
  | CoordOp.createTask task => createTask st task
  | CoordOp.completeTask taskId nodeId now => completeTask st taskId nodeId now
  | CoordOp.livenessCheck nodeId now => checkHeartbeat st nodeId now

/-! ### Multiplex router (router.ts) -/

inductive MultiplexEvent where
  | orgRegistered (org : OrganizationContext)
  | channelCreated (channel : MultiplexChannel)
  | channelPaused (channel : MultiplexChannel)
  | channelResumed (channel : MultiplexChannel)
  | taskQueued (task : DistributedTask)
  | taskRouting (task : DistributedTask) (channel : MultiplexChannel)
  | taskDelivered (task : DistributedTask) (channel : MultiplexChannel)
deriving DecidableEq

/-- The three mutable fields of `MultiplexRouter`, router.ts lines 10-12. -/
structure RouterState where
  channels : List (String × MultiplexChannel)
  organizations : List (String × OrganizationContext)
  messageQueue : List DistributedTask
deriving DecidableEq

def channelTypeStr : ChannelType → String
  | ChannelType.agent2agent => "agent2agent"
  | ChannelType.org2org => "org2org"
  | ChannelType.sensor2agent => "sensor2agent"
  | ChannelType.broadcast => "broadcast"

/-- The template literal of router.ts line 37: the channel identifier
derived from the triple. -/
def mkChannelId (sourceOrgId targetOrgId : String) (channelType : ChannelType) : String :=
  sourceOrgId ++ "->" ++ targetOrgId ++ ":" ++ channelTypeStr channelType

/-- JS `s.split(":")[0]`: everything before the first colon (the whole
string when there is no colon). -/
def orgIdOf (s : String) : String :=
  String.mk (s.toList.takeWhile fun c => decide (c ≠ ':'))

/-- `registerOrganization`, router.ts lines 24-27. -/
def registerOrganization (st : RouterState) (org : OrganizationContext) :
    RouterState × List MultiplexEvent :=
  ({ st with organizations := mapSet st.organizations org.orgId org },
   [MultiplexEvent.orgRegistered org])

/-- `createChannel`, router.ts lines 32-50: upsert by the triple-derived
identifier, fresh record with status `active`, return the identifier. -/
def createChannel (st : RouterState) (sourceOrgId targetOrgId : String)
    (channelType : ChannelType) : RouterState × String × List MultiplexEvent :=
  let channelId := mkChannelId sourceOrgId targetOrgId channelType
  let channel : MultiplexChannel :=
    { sourceOrgId := sourceOrgId, targetOrgId := targetOrgId,
      channelType := channelType, status := ChannelStatus.active }
  ({ st with channels := mapSet st.channels channelId channel },
   channelId, [MultiplexEvent.channelCreated channel])

/-- `findChannels`, router.ts lines 86-102: for each target-organization
prefix, probe the map at the `agent2agent`-typed identifier and keep the
channel when present and active. -/
def findChannels (channels : List (String × MultiplexChannel)) (task : DistributedTask) :
    List MultiplexChannel :=
  let sourceOrgId := orgIdOf task.sourceNode
  (task.targetNodes.map orgIdOf).filterMap fun targetOrgId =>
    match mapGet channels (mkChannelId sourceOrgId targetOrgId ChannelType.agent2agent) with
    | some channel =>
      if channel.status = ChannelStatus.active then some channel else none
    | none => none

/-- `route`, router.ts lines 55-81.  Throwing is modelled by
`Except.error`; the `setTimeout` that later emits `task:delivered` is a
separate scheduled callback, so only `task:routing` belongs to `route`'s
immediate effects. -/
def route (st : RouterState) (task : DistributedTask) :
    Except String (RouterState × List MultiplexEvent) :=
  match mapGet st.organizations (orgIdOf task.sourceNode) with
  | none => Except.error ("Source organization not found: " ++ task.sourceNode)
  | some _ =>
    match findChannels st.channels task with
    | [] =>
      Except.ok ({ st with messageQueue := st.messageQueue ++ [task] },
        [MultiplexEvent.taskQueued task])
    | channel :: _ =>
      Except.ok (st, [MultiplexEvent.taskRouting task channel])

/-- `pauseChannel`, router.ts lines 134-140. -/
def pauseChannel (st : RouterState) (channelId : String) :
    RouterState × List MultiplexEvent :=
  match mapGet st.channels channelId with
  | none => (st, [])
  | some channel =>
    let channel' : MultiplexChannel := { channel with status := ChannelStatus.paused }
    ({ st with channels := mapSet st.channels channelId channel' },
     [MultiplexEvent.channelPaused channel'])

/-- `processQueue`, router.ts lines 159-166: `while (queue.length > 0)
{ shift; route }`.  The loop has no intrinsic termination measure — when
`route` finds no channel it pushes the very task it was given back onto
the queue being drained — so it is modelled with explicit fuel: `none`
means the fuel was exhausted before the loop exited.  A `route` error
(unknown source organization) rejects the promise and aborts the loop. -/
def processQueue : Nat → RouterState → Option (RouterState × List MultiplexEvent)
  | 0, st =>
    match st.messageQueue with
    | [] => some (st, [])
    | _ :: _ => none
  | fuel + 1, st =>
    match st.messageQueue with
    | [] => some (st, [])
    | task :: rest =>
      let st1 : RouterState := { st with messageQueue := rest }
      match route st1 task with
      | Except.error _ => some (st1, [])
      | Except.ok (st2, evs) =>
        (processQueue fuel st2).map fun r => (r.1, evs ++ r.2)

/-- `resumeChannel`, router.ts lines 145-154: flip the channel back to
`active`, emit `channel:resumed`, then drain the global queue via
`processQueue` (fuel-instrumented as above). -/
def resumeChannel (fuel : Nat) (st : RouterState) (channelId : String) :
    Option (RouterState × List MultiplexEvent) :=
  match mapGet st.channels channelId with
  | none => some (st, [])
  | some channel =>
    let channel' : MultiplexChannel := { channel with status := ChannelStatus.active }
    let st1 : RouterState := { st with channels := mapSet st.channels channelId channel' }
    (processQueue fuel st1).map fun r =>
      (r.1, MultiplexEvent.channelResumed channel' :: r.2)

/-! ### Well-formedness invariants maintained by the JS maps -/

/-- `registerNode` keys the node map by `node.nodeId` and `nodeId` is never
mutated, so every reachable node map has distinct keys (a JS `Map`
property) each equal to its record's `nodeId`. -/
def NodesWF (nodes : List (String × BotNetNode)) : Prop :=
  (nodes.map Prod.fst).Nodup ∧ ∀ p ∈ nodes, p.2.nodeId = p.1

/-- `createChannel` keys the channel map by the identifier derived from the
stored record's triple, so every reachable channel map satisfies this. -/
def ChannelsWF (channels : List (String × MultiplexChannel)) : Prop :=
  ∀ p ∈ channels, p.1 = mkChannelId p.2.sourceOrgId p.2.targetOrgId p.2.channelType

/-! ### Concrete states used by counterexamples and witnesses -/

def emptyCoordSt : CoordinatorState := { nodes := [], tasks := [] }

def exNodeBusy : BotNetNode :=
  { nodeId := "n1", agentId := "a1", orgId := "o1", capabilities := [],
    status := NodeStatus.busy, lastHeartbeat := 0 }

def exNodeOnline : BotNetNode :=
  { nodeId := "n1", agentId := "a1", orgId := "o1", capabilities := [],
    status := NodeStatus.online, lastHeartbeat := 0 }

def exStBusy : CoordinatorState := { nodes := [("n1", exNodeBusy)], tasks := [] }

def exTask1 : DistributedTask :=
  { taskId := "t1", type := "w", priority := 1, sourceNode := "o1:n0",
    targetNodes := ["o1:n1"], status := TaskStatus.pending, createdAt := 0,
    completedAt := none }

def exStOnline : CoordinatorState := { nodes := [("n1", exNodeOnline)], tasks := [] }

/-- A task record already in terminal status `failed`. -/
def exFailedTask : DistributedTask :=
  { taskId := "t1", type := "w", priority := 1, sourceNode := "o9:n9",
    targetNodes := ["zzz"], status := TaskStatus.failed, createdAt := 0,
    completedAt := none }

/-- A fresh submission reusing the taskId of `exFailedTask`. -/
def exTaskDup : DistributedTask :=
  { taskId := "t1", type := "w", priority := 1, sourceNode := "o9:n9",
    targetNodes := ["zzz"], status := TaskStatus.pending, createdAt := 1,
    completedAt := none }

def exStC5 : CoordinatorState := { nodes := [], tasks := [("t1", exFailedTask)] }

def exStC3 : CoordinatorState :=
  { nodes := [("n1", exNodeOnline)], tasks := [("t1", exFailedTask)] }

def exOrgA : OrganizationContext := { orgId := "A", name := "Org A", tenantId := "tA" }

/-- A paused agent2agent channel A -> B. -/
def exChanAB : MultiplexChannel :=
  { sourceOrgId := "A", targetOrgId := "B", channelType := ChannelType.agent2agent,
    status := ChannelStatus.paused }

/-- A task from organization A addressed to organization C (for which no
channel exists). -/
def exTaskC : DistributedTask :=
  { taskId := "t1", type := "x", priority := 1, sourceNode := "A:n1",
    targetNodes := ["C:m1"], status := TaskStatus.pending, createdAt := 0,
    completedAt := none }

/-- A task from organization A addressed to organization B. -/
def exTaskB : DistributedTask :=
  { taskId := "t2", type := "x", priority := 1, sourceNode := "A:n1",
    targetNodes := ["B:m1"], status := TaskStatus.pending, createdAt := 0,
    completedAt := none }

/-- Router state: org A registered, paused channel A -> B, task to C queued. -/
def exRouterSt : RouterState :=
  { channels := [(mkChannelId "A" "B" ChannelType.agent2agent, exChanAB)],
    organizations := [("A", exOrgA)], messageQueue := [exTaskC] }

/-- `exRouterSt` right after `resumeChannel` has reactivated A -> B:
the state on which the drain loop then runs forever. -/
def exLoopSt : RouterState :=
  { channels := [(mkChannelId "A" "B" ChannelType.agent2agent,
      { exChanAB with status := ChannelStatus.active })],
    organizations := [("A", exOrgA)], messageQueue := [exTaskC] }

/-- Router state with no channels, used for the queueing witness. -/
def exRouterNoChan : RouterState :=
  { channels := [], organizations := [("A", exOrgA)], messageQueue := [] }

/-! ### Association-list map lemmas -/

theorem mapGet_mapSet {α : Type} (m : List (String × α)) (k k' : String) (v : α) :
    mapGet (mapSet m k v) k' = if k = k' then some v else mapGet m k' := by
  induction m with
  | nil => simp [mapGet, mapSet]
  | cons p rest ih =>
    obtain ⟨k0, v0⟩ := p
    by_cases h0 : k0 = k
    · subst h0
      by_cases h1 : k0 = k'
      · subst h1; simp [mapGet, mapSet]
      · simp [mapGet, mapSet, h1]
    · by_cases h1 : k0 = k'
      · subst h1
        have hne : ¬k = k0 := fun h => h0 h.symm
        simp [mapGet, mapSet, h0, hne]
      · simp [mapGet, mapSet, h0, h1, ih]

theorem mapGet_mapSet_self {α : Type} (m : List (String × α)) (k : String) (v : α) :
    mapGet (mapSet m k v) k = some v := by
  simp [mapGet_mapSet]

theorem mapGet_mapSet_ne {α : Type} (m : List (String × α)) {k k' : String} (v : α)
    (h : k ≠ k') : mapGet (mapSet m k v) k' = mapGet m k' := by
  simp [mapGet_mapSet, h]

theorem mapSet_mapSet_same {α : Type} (m : List (String × α)) (k : String) (v v' : α) :
    mapSet (mapSet m k v) k v' = mapSet m k v' := by
  induction m with
  | nil => simp [mapSet]
  | cons p rest ih =>
    obtain ⟨k0, v0⟩ := p
    by_cases h0 : k0 = k
    · subst h0; simp [mapSet]
    · simp [mapSet, h0, ih]

theorem mapGet_eq_some_mem {α : Type} {m : List (String × α)} {k : String} {v : α}
    (h : mapGet m k = some v) : (k, v) ∈ m := by
  induction m with
  | nil => simp [mapGet] at h
  | cons p rest ih =>
    obtain ⟨k0, v0⟩ := p
    by_cases h0 : k0 = k
    · subst h0
      simp [mapGet] at h
      simp [h]
    · simp [mapGet, h0] at h
      exact List.mem_cons_of_mem _ (ih h)


/-! ### C1: liveness check versus busy nodes (checkHeartbeat) -/

/-- C1 counterexample: a `busy` node whose last heartbeat is more than
`2 * heartbeatInterval` old IS transitioned to `offline` by the liveness
check, and `node:offline` IS emitted — `checkHeartbeat` never looks at
`status`, so there is a busy-to-offline edge, contrary to the claim. -/
theorem busy_node_marked_offline :
    exNodeBusy.status = NodeStatus.busy
    ∧ (mapGet (checkHeartbeat exStBusy "n1" 100000).1.nodes "n1").map BotNetNode.status
        = some NodeStatus.offline
    ∧ (checkHeartbeat exStBusy "n1" 100000).2
        = [BotNetEvent.nodeOffline { exNodeBusy with status := NodeStatus.offline }] := by
  decide

/-- C1 amended: the liveness check transitions any registered node —
whatever its status, including `busy` — to `offline` and emits
`node:offline` exactly when `now - lastHeartbeat > 2 * heartbeatInterval`;
otherwise it changes nothing and emits nothing. -/
theorem checkHeartbeat_offline_iff_stale :
    ∀ (st : CoordinatorState) (nodeId : String) (now : Nat) (node : BotNetNode),
      mapGet st.nodes nodeId = some node →
      (heartbeatInterval * 2 < now - node.lastHeartbeat →
        checkHeartbeat st nodeId now =
          ({ st with nodes := mapSet st.nodes nodeId { node with status := NodeStatus.offline } },
           [BotNetEvent.nodeOffline { node with status := NodeStatus.offline }]))
      ∧ (¬ heartbeatInterval * 2 < now - node.lastHeartbeat →
        checkHeartbeat st nodeId now = (st, [])) := by
  intro st nodeId now node h
  constructor <;> intro hc <;> simp [checkHeartbeat, h, hc]

/-- Witness for `checkHeartbeat_offline_iff_stale` at a concrete stale
busy node. -/
theorem checkHeartbeat_offline_iff_stale_witness :
    checkHeartbeat exStBusy "n1" 100000 =
      ({ exStBusy with
          nodes := mapSet exStBusy.nodes "n1" { exNodeBusy with status := NodeStatus.offline } },
       [BotNetEvent.nodeOffline { exNodeBusy with status := NodeStatus.offline }]) :=
  (checkHeartbeat_offline_iff_stale exStBusy "n1" 100000 exNodeBusy rfl).1 (by decide)

/-! ### C4: the capable set (findCapableNodes) -/

/-- C4: a node is in the capable set iff it is registered, its status is
`online`, and some entry of `task.targetNodes` contains its `nodeId` or
its `orgId` as a substring; consequently a `busy` or `offline` node is
never capable. -/
theorem findCapableNodes_characterization :
    ∀ (nodes : List (String × BotNetNode)) (task : DistributedTask) (node : BotNetNode),
      (node ∈ findCapableNodes nodes task ↔
        node ∈ mapValues nodes ∧ node.status = NodeStatus.online ∧
          ∃ target ∈ task.targetNodes,
            node.nodeId.toList <:+: target.toList ∨ node.orgId.toList <:+: target.toList)
      ∧ (node.status ≠ NodeStatus.online → node ∉ findCapableNodes nodes task) := by
  intro nodes task node
  constructor
  · simp [findCapableNodes, List.mem_filter, strIncludes, List.any_eq_true, and_assoc]
  · intro hne hmem
    simp [findCapableNodes, List.mem_filter] at hmem
    exact hne hmem.2.1

/-- Witness for `findCapableNodes_characterization`: a concrete online
node whose `nodeId` is contained in a target entry is capable. -/
theorem findCapableNodes_characterization_witness :
    exNodeOnline ∈ findCapableNodes exStOnline.nodes exTask1 :=
  (findCapableNodes_characterization exStOnline.nodes exTask1 exNodeOnline).1.mpr
    (by decide)

/-! ### C10: completeTask on a missing task or node -/

/-- C10: `completeTask` is a complete no-op (state unchanged, no event)
when the task map has no entry for `taskId` or the node map has no entry
for `nodeId` — in particular when the node was unregistered before its
scheduled completion fired. -/
theorem completeTask_noop_of_missing :
    ∀ (st : CoordinatorState) (taskId nodeId : String) (now : Nat),
      mapGet st.tasks taskId = none ∨ mapGet st.nodes nodeId = none →
      completeTask st taskId nodeId now = (st, []) := by
  intro st taskId nodeId now h
  rcases h with h | h
  · simp [completeTask, h]
  · cases htask : mapGet st.tasks taskId <;> simp [completeTask, h, htask]

/-- Witness for `completeTask_noop_of_missing` on the empty state. -/
theorem completeTask_noop_of_missing_witness :
    completeTask emptyCoordSt "t1" "n1" 5 = (emptyCoordSt, []) :=
  completeTask_noop_of_missing emptyCoordSt "t1" "n1" 5 (Or.inl rfl)

/-! ### C7: route errors exactly on an unknown source organization -/

/-- C7: `route` returns a synchronous error iff the prefix of
`task.sourceNode` before the first colon is not a registered organization
(the task itself is untouched: `route` never writes `task.status`);
otherwise, when no active matching channel exists, the task is appended
to the tail of the global queue and `task:queued` is emitted. -/
theorem route_error_iff_unknown_source :
    ∀ (st : RouterState) (task : DistributedTask),
      ((∃ e, route st task = Except.error e) ↔
        mapGet st.organizations (orgIdOf task.sourceNode) = none)
      ∧ (mapGet st.organizations (orgIdOf task.sourceNode) ≠ none →
          findChannels st.channels task = [] →
          route st task =
            Except.ok ({ st with messageQueue := st.messageQueue ++ [task] },
              [MultiplexEvent.taskQueued task])) := by
  intro st task
  constructor
  · cases h : mapGet st.organizations (orgIdOf task.sourceNode) with
    | none => simp [route, h]
    | some org =>
      simp only [route, h]
      cases findChannels st.channels task <;> simp
  · intro h hchan
    cases horg : mapGet st.organizations (orgIdOf task.sourceNode) with
    | none => exact absurd horg h
    | some org => simp [route, horg, hchan]

/-- Witness for `route_error_iff_unknown_source`: with organization A
registered and no channels at all, routing a task from A queues it. -/
theorem route_error_iff_unknown_source_witness :
    route exRouterNoChan exTaskC =
      Except.ok ({ exRouterNoChan with messageQueue := [exTaskC] },
        [MultiplexEvent.taskQueued exTaskC]) :=
  (route_error_iff_unknown_source exRouterNoChan exTaskC).2 (by decide) rfl

/-! ### C9: createChannel is idempotent on identity, not on state -/

/-- C9: re-creating a channel with the same
`(sourceOrgId, targetOrgId, channelType)` triple yields the same channel
identifier, and the second creation overwrites the stored record back to
status `active` even though the channel was paused in between (and the
pause really had set it to `paused`). -/
theorem createChannel_idempotent_identity :
    ∀ (st : RouterState) (a b : String) (ct : ChannelType),
      (createChannel (pauseChannel (createChannel st a b ct).1
          (createChannel st a b ct).2.1).1 a b ct).2.1
        = (createChannel st a b ct).2.1
      ∧ mapGet (pauseChannel (createChannel st a b ct).1
            (createChannel st a b ct).2.1).1.channels (createChannel st a b ct).2.1
          = some { sourceOrgId := a, targetOrgId := b, channelType := ct,
                   status := ChannelStatus.paused }
      ∧ mapGet (createChannel (pauseChannel (createChannel st a b ct).1
            (createChannel st a b ct).2.1).1 a b ct).1.channels
            (createChannel st a b ct).2.1
          = some { sourceOrgId := a, targetOrgId := b, channelType := ct,
                   status := ChannelStatus.active } := by
  intro st a b ct
  refine ⟨rfl, ?_, ?_⟩
  · simp [createChannel, pauseChannel, mapGet_mapSet_self]
  · simp [createChannel, pauseChannel, mapGet_mapSet_self]



/-! ### C5: createTask with an empty capable set -/

theorem getStats_failedTasks (st : CoordinatorState) :
    (getStats st).failedTasks
      = ((mapValues st.tasks).filter fun t => decide (t.status = TaskStatus.failed)).length :=
  rfl

theorem filterLength_mapValues_mapSet_none {α : Type} (p : α → Bool)
    (m : List (String × α)) (k : String) (v : α) (h : mapGet m k = none) :
    ((mapValues (mapSet m k v)).filter p).length
      = ((mapValues m).filter p).length + (if p v then 1 else 0) := by
  induction m with
  | nil => cases hv : p v <;> simp [mapSet, mapValues, List.filter, hv]
  | cons q rest ih =>
    obtain ⟨k0, v0⟩ := q
    have h0 : ¬k0 = k := by
      intro he; simp [mapGet, he] at h
    have h1 : mapGet rest k = none := by
      simpa [mapGet, h0] using h
    have hrec := ih h1
    cases hv : p v <;> cases hv0 : p v0 <;>
      simp [mapSet, mapValues, h0, List.filter_cons, hv, hv0] at hrec ⊢ <;>
      omega

theorem filterLength_mapValues_mapSet_some {α : Type} (p : α → Bool)
    (m : List (String × α)) (k : String) (v old : α) (h : mapGet m k = some old) :
    ((mapValues (mapSet m k v)).filter p).length + (if p old then 1 else 0)
      = ((mapValues m).filter p).length + (if p v then 1 else 0) := by
  induction m with
  | nil => simp [mapGet] at h
  | cons q rest ih =>
    obtain ⟨k0, v0⟩ := q
    by_cases h0 : k0 = k
    · have hold : v0 = old := by simpa [mapGet, h0] using h
      subst hold
      cases hv : p v <;> cases hv0 : p v0 <;>
        simp [mapSet, mapValues, h0, List.filter_cons, hv, hv0]
    · have h1 : mapGet rest k = some old := by simpa [mapGet, h0] using h
      have hrec := ih h1
      cases hv : p v <;> cases hv0 : p v0 <;> cases hvold : p old <;>
        simp [mapSet, mapValues, h0, List.filter_cons, hv, hv0, hvold] at hrec ⊢ <;>
        omega

/-- C5 counterexample: when the submitted task reuses the taskId of a
record that is already `failed`, the failure path of `createTask` leaves
`getStats().failedTasks` unchanged (the overwritten record was already
counted), refuting "the failed-task count is one higher" as universally
stated. -/
theorem createTask_failed_count_not_incremented :
    findCapableNodes exStC5.nodes exTaskDup = []
    ∧ (getStats exStC5).failedTasks = 1
    ∧ (getStats (createTask exStC5 exTaskDup).1).failedTasks = 1 := by
  decide

/-- C5 amended: if the capable set is empty, `createTask` records the task
with status `failed`, emits `task:created` then `task:failed` with reason
`no_capable_nodes` (and, being total, raises nothing), leaves every node
untouched, and — provided the taskId does not overwrite an
already-`failed` record (in particular whenever the taskId is fresh) —
`getStats().failedTasks` grows by exactly one. -/
theorem createTask_no_capable_nodes :
    ∀ (st : CoordinatorState) (task : DistributedTask),
      findCapableNodes st.nodes task = [] →
      mapGet (createTask st task).1.tasks task.taskId
          = some { task with status := TaskStatus.failed }
      ∧ (createTask st task).2 =
          [BotNetEvent.taskCreated task,
           BotNetEvent.taskFailed { task with status := TaskStatus.failed } "no_capable_nodes"]
      ∧ (createTask st task).1.nodes = st.nodes
      ∧ ((∀ old, mapGet st.tasks task.taskId = some old → old.status ≠ TaskStatus.failed) →
          (getStats (createTask st task).1).failedTasks = (getStats st).failedTasks + 1) := by
  intro st task h
  have hc : createTask st task =
      ({ st with tasks := mapSet st.tasks task.taskId { task with status := TaskStatus.failed } },
       [BotNetEvent.taskCreated task,
        BotNetEvent.taskFailed { task with status := TaskStatus.failed } "no_capable_nodes"]) := by
    simp [createTask, h, mapSet_mapSet_same]
  refine ⟨?_, ?_, ?_, ?_⟩
  · rw [hc]; exact mapGet_mapSet_self _ _ _
  · rw [hc]
  · rw [hc]
  · intro hfresh
    rw [hc, getStats_failedTasks, getStats_failedTasks]
    cases hold : mapGet st.tasks task.taskId with
    | none =>
      simp [filterLength_mapValues_mapSet_none _ _ _ _ hold]
    | some old =>
      have hnf : old.status ≠ TaskStatus.failed := hfresh old hold
      have := filterLength_mapValues_mapSet_some
        (fun t => decide (t.status = TaskStatus.failed)) st.tasks task.taskId
        { task with status := TaskStatus.failed } old hold
      simpa [hnf] using this

/-- Witness for `createTask_no_capable_nodes` at a fresh taskId on the
empty coordinator: the failed count becomes one. -/
theorem createTask_no_capable_nodes_witness :
    mapGet (createTask emptyCoordSt exTaskDup).1.tasks "t1"
        = some { exTaskDup with status := TaskStatus.failed }
    ∧ (getStats (createTask emptyCoordSt exTaskDup).1).failedTasks
        = (getStats emptyCoordSt).failedTasks + 1 :=
  ⟨(createTask_no_capable_nodes emptyCoordSt exTaskDup rfl).1,
   (createTask_no_capable_nodes emptyCoordSt exTaskDup rfl).2.2.2
     (fun old hold => by simp [mapGet] at hold)⟩

/-! ### C3: terminality of failed and completed -/

theorem assignLoop_tasks (task : DistributedTask) :
    ∀ (sel : List BotNetNode) (st : CoordinatorState),
      (assignLoop st task sel).1.tasks = st.tasks := by
  intro sel
  induction sel with
  | nil => intro st; rfl
  | cons n rest ih => intro st; simpa [assignLoop, assignTask] using ih _

theorem createTask_tasks_other (st : CoordinatorState) (task : DistributedTask)
    (k : String) (h : ¬task.taskId = k) :
    mapGet (createTask st task).1.tasks k = mapGet st.tasks k := by
  by_cases he : (findCapableNodes st.nodes task).isEmpty
  · simp [createTask, he, mapSet_mapSet_same, mapGet_mapSet, h]
  · simp [createTask, he, assignLoop_tasks, mapGet_mapSet, h]

/-- C3 counterexample: `completeTask` called (directly, or by a scheduled
completion) with an existing node on a task whose status is `failed`
rewrites that status to `completed` — `failed` is not terminal under the
operations the claim lists. -/
theorem completeTask_revives_failed_task :
    (mapGet exStC3.tasks "t1").map DistributedTask.status = some TaskStatus.failed
    ∧ (mapGet (stepCoord exStC3 (CoordOp.completeTask "t1" "n1" 7)).1.tasks "t1").map
        DistributedTask.status = some TaskStatus.completed := by
  decide

/-- C3 amended: once a task's status is `completed` or `failed`, no
coordinator operation changes it, except that (a) `completeTask` on that
taskId (with an existing node) sets a `failed` task to `completed`, and
(b) `createTask` reusing the same taskId replaces the record wholesale
(the JS original leaves the old record object itself unmutated). -/
theorem terminal_statuses :
    ∀ (st : CoordinatorState) (op : CoordOp) (taskId : String) (t t' : DistributedTask),
      mapGet st.tasks taskId = some t →
      t.status = TaskStatus.completed ∨ t.status = TaskStatus.failed →
      mapGet (stepCoord st op).1.tasks taskId = some t' →
      t'.status = t.status
      ∨ (t.status = TaskStatus.failed ∧ t'.status = TaskStatus.completed
          ∧ ∃ nodeId now, op = CoordOp.completeTask taskId nodeId now)
      ∨ (∃ u, op = CoordOp.createTask u ∧ u.taskId = taskId) := by
  intro st op taskId t t' ht hterm ht'
  cases op with
  | registerNode node =>
    left
    simp only [stepCoord, registerNode] at ht'
    rw [ht] at ht'; cases ht'; rfl
  | unregisterNode nodeId =>
    left
    have : (stepCoord st (CoordOp.unregisterNode nodeId)).1.tasks = st.tasks := by
      simp only [stepCoord, unregisterNode]
      cases mapGet st.nodes nodeId <;> rfl
    rw [this, ht] at ht'; cases ht'; rfl
  | heartbeat nodeId now =>
    left
    have : (stepCoord st (CoordOp.heartbeat nodeId now)).1.tasks = st.tasks := by
      simp only [stepCoord, heartbeat]
      cases mapGet st.nodes nodeId with
      | none => rfl
      | some node =>
        by_cases hs : node.status = NodeStatus.offline <;> simp [hs]
    rw [this, ht] at ht'; cases ht'; rfl
  | livenessCheck nodeId now =>
    left
    have : (stepCoord st (CoordOp.livenessCheck nodeId now)).1.tasks = st.tasks := by
      simp only [stepCoord, checkHeartbeat]
      cases mapGet st.nodes nodeId with
      | none => rfl
      | some node =>
        by_cases hs : heartbeatInterval * 2 < now - node.lastHeartbeat <;> simp [hs]
    rw [this, ht] at ht'; cases ht'; rfl
  | createTask u =>
    by_cases hid : u.taskId = taskId
    · right; right; exact ⟨u, rfl, hid⟩
    · left
      rw [stepCoord, createTask_tasks_other st u taskId hid, ht] at ht'
      cases ht'; rfl
  | completeTask tid nid now =>
    simp only [stepCoord, completeTask] at ht'
    cases htask : mapGet st.tasks tid with
    | none =>
      left; simp only [htask] at ht'; rw [ht] at ht'; cases ht'; rfl
    | some task0 =>
      cases hnode : mapGet st.nodes nid with
      | none =>
        left; simp only [htask, hnode] at ht'; rw [ht] at ht'; cases ht'; rfl
      | some node0 =>
        simp only [htask, hnode] at ht'
        by_cases hid : tid = taskId
        · subst hid
          rw [mapGet_mapSet_self] at ht'
          cases ht'
          rcases hterm with hcomp | hfail
          · left; rw [hcomp]
          · right; left; exact ⟨hfail, rfl, nid, now, rfl⟩
        · left
          rw [mapGet_mapSet_ne _ _ hid, ht] at ht'
          cases ht'; rfl

/-- Witness for `terminal_statuses`: a heartbeat leaves a failed task's
status untouched. -/
theorem terminal_statuses_witness :
    exFailedTask.status = exFailedTask.status
    ∨ (exFailedTask.status = TaskStatus.failed
        ∧ exFailedTask.status = TaskStatus.completed
        ∧ ∃ nodeId now, CoordOp.heartbeat "n1" 5 = CoordOp.completeTask "t1" nodeId now)
    ∨ (∃ u, CoordOp.heartbeat "n1" 5 = CoordOp.createTask u ∧ u.taskId = "t1") :=
  terminal_statuses exStC3 (CoordOp.heartbeat "n1" 5) "t1" exFailedTask exFailedTask
    rfl (Or.inr rfl) (by decide)



/-! ### C6: node selection and assignment (selectNodes / assignTask) -/

theorem findCapableNodes_online (nodes : List (String × BotNetNode))
    (task : DistributedTask) :
    ∀ n ∈ findCapableNodes nodes task, n.status = NodeStatus.online := by
  intro n hn
  simp [findCapableNodes, List.mem_filter] at hn
  exact hn.2.1

/-- A list of all-`online` nodes is already sorted for the comparator of
`selectNodes`, so the (stable) sort leaves it unchanged. -/
theorem mergeSort_nodeSortLe_of_online (l : List BotNetNode)
    (h : ∀ n ∈ l, n.status = NodeStatus.online) :
    l.mergeSort nodeSortLe = l := by
  apply List.mergeSort_of_sorted
  apply List.pairwise_of_forall_mem_list
  intro a ha b hb
  simp [nodeSortLe, h a ha]

theorem selectNodes_of_online (l : List BotNetNode) (task : DistributedTask)
    (h : ∀ n ∈ l, n.status = NodeStatus.online) :
    selectNodes l task = l.take task.targetNodes.length := by
  simp [selectNodes, mergeSort_nodeSortLe_of_online l h]

theorem nodesWF_values_nodeIds {nodes : List (String × BotNetNode)}
    (h : NodesWF nodes) : ((mapValues nodes).map BotNetNode.nodeId).Nodup := by
  have heq : (mapValues nodes).map BotNetNode.nodeId = nodes.map Prod.fst := by
    rw [mapValues, List.map_map]
    exact List.map_congr_left fun p hp => h.2 p hp
  rw [heq]
  exact h.1

theorem assignLoop_events (task : DistributedTask) :
    ∀ (sel : List BotNetNode) (st : CoordinatorState),
      (assignLoop st task sel).2
        = sel.map fun n => BotNetEvent.taskAssigned task { n with status := NodeStatus.busy } := by
  intro sel
  induction sel with
  | nil => intro st; rfl
  | cons n rest ih => intro st; simp [assignLoop, assignTask, ih]

theorem assignLoop_nodes_other (task : DistributedTask) :
    ∀ (sel : List BotNetNode) (st : CoordinatorState) (k : String),
      k ∉ sel.map BotNetNode.nodeId →
      mapGet (assignLoop st task sel).1.nodes k = mapGet st.nodes k := by
  intro sel
  induction sel with
  | nil => intro st k _; rfl
  | cons n rest ih =>
    intro st k hk
    simp only [List.map_cons, List.mem_cons, not_or] at hk
    have h1 : ¬n.nodeId = k := fun hh => hk.1 hh.symm
    simp [assignLoop, ih _ _ hk.2, assignTask, mapGet_mapSet, h1]

theorem assignLoop_nodes_mem (task : DistributedTask) :
    ∀ (sel : List BotNetNode) (st : CoordinatorState),
      (sel.map BotNetNode.nodeId).Nodup →
      ∀ n ∈ sel,
        mapGet (assignLoop st task sel).1.nodes n.nodeId
          = some { n with status := NodeStatus.busy } := by
  intro sel
  induction sel with
  | nil => intro st _ n hn; cases hn
  | cons m rest ih =>
    intro st hnd n hn
    simp only [List.map_cons, List.nodup_cons] at hnd
    rcases List.mem_cons.mp hn with rfl | hn'
    · have hother :=
        assignLoop_nodes_other task rest (assignTask st task n).1 n.nodeId hnd.1
      simp only [assignLoop]
      rw [hother]
      simp [assignTask, mapGet_mapSet_self]
    · simp only [assignLoop]
      exact ih (assignTask st task m).1 hnd.2 n hn'

/-- C6: with a non-empty capable set (all of whose members are `online`,
so the "prefer online" comparator is a stable no-op), `createTask` selects
exactly the first `min(|capable|, |targetNodes|)` capable nodes in
registry insertion order, emits `task:assigned` exactly once per selected
node (in order, after `task:created`), and sets each selected node's
status to `busy`. -/
theorem createTask_selection :
    ∀ (st : CoordinatorState) (task : DistributedTask),
      NodesWF st.nodes →
      findCapableNodes st.nodes task ≠ [] →
      selectNodes (findCapableNodes st.nodes task) task
          = (findCapableNodes st.nodes task).take task.targetNodes.length
      ∧ (selectNodes (findCapableNodes st.nodes task) task).length
          = min (findCapableNodes st.nodes task).length task.targetNodes.length
      ∧ (createTask st task).2
          = BotNetEvent.taskCreated task ::
              (selectNodes (findCapableNodes st.nodes task) task).map
                (fun n => BotNetEvent.taskAssigned task { n with status := NodeStatus.busy })
      ∧ ∀ n ∈ selectNodes (findCapableNodes st.nodes task) task,
          mapGet (createTask st task).1.nodes n.nodeId
            = some { n with status := NodeStatus.busy } := by
  intro st task hWF hne
  have honline := findCapableNodes_online st.nodes task
  have hsel := selectNodes_of_online (findCapableNodes st.nodes task) task honline
  have hempty : (findCapableNodes st.nodes task).isEmpty = false := by
    simpa [List.isEmpty_eq_false] using hne
  have hsub : List.Sublist (selectNodes (findCapableNodes st.nodes task) task)
      (mapValues st.nodes) := by
    rw [hsel]
    exact (List.take_sublist _ _).trans (List.filter_sublist _)
  have hnd : ((selectNodes (findCapableNodes st.nodes task) task).map BotNetNode.nodeId).Nodup :=
    (nodesWF_values_nodeIds hWF).sublist (hsub.map BotNetNode.nodeId)
  refine ⟨hsel, ?_, ?_, ?_⟩
  · simp [hsel, List.length_take, Nat.min_comm]
  · simp [createTask, hempty, assignLoop_events]
  · intro n hn
    simp only [createTask, hempty, Bool.false_eq_true, if_false]
    exact assignLoop_nodes_mem task _ _ hnd n hn

/-- Witness for `createTask_selection`: one online node, one matching
target — the node is selected, assigned, and set to busy. -/
theorem createTask_selection_witness :
    selectNodes (findCapableNodes exStOnline.nodes exTask1) exTask1
        = (findCapableNodes exStOnline.nodes exTask1).take exTask1.targetNodes.length
    ∧ (createTask exStOnline exTask1).2
        = BotNetEvent.taskCreated exTask1 ::
            (selectNodes (findCapableNodes exStOnline.nodes exTask1) exTask1).map
              (fun n => BotNetEvent.taskAssigned exTask1 { n with status := NodeStatus.busy }) :=
  ⟨(createTask_selection exStOnline exTask1 ⟨by decide, by decide⟩ (by decide)).1,
   (createTask_selection exStOnline exTask1 ⟨by decide, by decide⟩ (by decide)).2.2.1⟩



/-! ### C8: routing only ever probes agent2agent channels -/

theorem take_rev_of_append_eq {x y s t : List Char} (h : x ++ s = y ++ t)
    (hle : s.length ≤ t.length) : s.reverse = t.reverse.take s.length := by
  have h' : s.reverse ++ x.reverse = t.reverse ++ y.reverse := by
    simpa [List.reverse_append] using congrArg List.reverse h
  have h1 : (s.reverse ++ x.reverse).take s.length = s.reverse :=
    List.take_left' (by simp)
  have h2 : (t.reverse ++ y.reverse).take s.length = t.reverse.take s.length := by
    rw [List.take_append_eq_append_take]
    have hz : s.length - t.reverse.length = 0 := by
      simpa using Nat.sub_eq_zero_of_le hle
    rw [hz]
    simp
  rw [← h1, h', h2]

/-- If two suffixes are incompatible (witnessed by their reversed
prefixes), no two strings extended by them are equal. -/
theorem ne_append_of_tail {s t : List Char} (hle : s.length ≤ t.length)
    (hne : s.reverse ≠ t.reverse.take s.length) :
    ∀ x y : List Char, x ++ s ≠ y ++ t :=
  fun _ _ h => hne (take_rev_of_append_eq h hle)

theorem mkChannelId_regroup (a b : String) (ct : ChannelType) :
    mkChannelId a b ct = (a ++ "->" ++ b) ++ (":" ++ channelTypeStr ct) := by
  simp [mkChannelId, String.append_assoc]

/-- The channel identifier string determines the channel type: the four
type names pairwise fail to be suffixes of one another. -/
theorem mkChannelId_type_eq {a b c d : String} {ct ct' : ChannelType}
    (h : mkChannelId a b ct = mkChannelId c d ct') : ct = ct' := by
  have hd : (a ++ "->" ++ b).data ++ (":" ++ channelTypeStr ct).data
      = (c ++ "->" ++ d).data ++ (":" ++ channelTypeStr ct').data := by
    have h2 : ((a ++ "->" ++ b) ++ (":" ++ channelTypeStr ct))
        = ((c ++ "->" ++ d) ++ (":" ++ channelTypeStr ct')) := by
      rw [← mkChannelId_regroup, ← mkChannelId_regroup]; exact h
    simpa using congrArg String.data h2
  cases ct <;> cases ct' <;>
    first
      | rfl
      | exact absurd hd (ne_append_of_tail (by decide) (by decide) _ _)
      | exact absurd hd.symm (ne_append_of_tail (by decide) (by decide) _ _)

/-- C8: `findChannels` (hence `route`) only ever selects channels stored
under an `agent2agent`-typed identifier for the task's source/target
organization prefixes, and only when their status is `active`; a channel
of any other type between the same organizations is invisible to it —
creating one changes nothing about the lookup, so it neither gets
selected nor prevents queueing. -/
theorem findChannels_agent2agent_only :
    ∀ (st : RouterState) (task : DistributedTask),
      (ChannelsWF st.channels →
        ∀ c ∈ findChannels st.channels task,
          c.status = ChannelStatus.active ∧ c.channelType = ChannelType.agent2agent)
      ∧ (∀ (src tgt : String) (ct : ChannelType), ct ≠ ChannelType.agent2agent →
          findChannels (createChannel st src tgt ct).1.channels task
            = findChannels st.channels task) := by
  intro st task
  constructor
  · intro hWF c hc
    simp only [findChannels, List.mem_filterMap] at hc
    obtain ⟨tgt, _, hf⟩ := hc
    cases hch : mapGet st.channels
        (mkChannelId (orgIdOf task.sourceNode) tgt ChannelType.agent2agent) with
    | none => rw [hch] at hf; cases hf
    | some ch =>
      rw [hch] at hf
      by_cases hact : ch.status = ChannelStatus.active
      · simp [hact] at hf
        subst hf
        refine ⟨hact, ?_⟩
        have hmem := mapGet_eq_some_mem hch
        have hkey := hWF _ hmem
        exact mkChannelId_type_eq hkey.symm
      · simp [hact] at hf
  · intro src tgt ct hne
    simp only [findChannels, createChannel]
    apply List.filterMap_congr
    intro t _
    have hk : ¬mkChannelId src tgt ct
        = mkChannelId (orgIdOf task.sourceNode) t ChannelType.agent2agent := by
      intro hk
      exact hne (mkChannelId_type_eq hk)
    rw [mapGet_mapSet_ne _ _ hk]

/-- Witness for `findChannels_agent2agent_only`: with only an `org2org`
channel A -> B present, a task from A to B matches nothing, and creating
that `org2org` channel indeed left the lookup unchanged. -/
theorem findChannels_agent2agent_only_witness :
    findChannels (createChannel exRouterNoChan "A" "B" ChannelType.org2org).1.channels exTaskB
      = findChannels exRouterNoChan.channels exTaskB :=
  (findChannels_agent2agent_only exRouterNoChan exTaskB).2 "A" "B" ChannelType.org2org
    (by decide)



/-! ### C2: resumeChannel's queue drain does not terminate -/

/-- One loop iteration on `exLoopSt` shifts the task, fails to find a
channel to organization C, and pushes the task back — returning to
exactly the same state — so no amount of fuel completes the drain. -/
theorem processQueue_exLoopSt_none :
    ∀ fuel : Nat, processQueue fuel exLoopSt = none := by
  intro fuel
  induction fuel with
  | zero => rfl
  | succ n ih =>
    have hstep : processQueue (n + 1) exLoopSt =
        (processQueue n exLoopSt).map fun r =>
          (r.1, [MultiplexEvent.taskQueued exTaskC] ++ r.2) := rfl
    rw [hstep, ih]
    rfl

/-- C2 (code bug): resuming the existing channel A -> B while the global
queue holds a task whose only target organization C has no active
agent2agent channel never returns: `route` re-queues the task at the tail
of the very queue `processQueue` is shifting from, so the `while` loop
re-processes it forever (no fuel bound suffices), instead of terminating
with the unroutable task left queued as the claim describes. -/
theorem resume_drain_diverges :
    ∀ fuel : Nat,
      resumeChannel fuel exRouterSt (mkChannelId "A" "B" ChannelType.agent2agent) = none := by
  intro fuel
  have h : resumeChannel fuel exRouterSt (mkChannelId "A" "B" ChannelType.agent2agent)
      = (processQueue fuel exLoopSt).map fun r =>
          (r.1, MultiplexEvent.channelResumed
              { exChanAB with status := ChannelStatus.active } :: r.2) := rfl
  rw [h, processQueue_exLoopSt_none]
  rfl


end ASI
